import Mathlib

/-!
Verification of the hover packaging module (cmd/packaging.go): scaffolding,
staging, building and artifact placement for the linux-snap and linux-deb
packaging formats.

Filesystem and process effects are embedded as explicit action traces over an
environment describing the outcomes of the external world (stat results,
executable lookup, copy and rename success).  An action appears in a trace
when the operation is attempted; when the environment makes it fail, an
`exitFail` action (modelling a printed diagnostic followed by os.Exit(1))
follows and the trace ends.
-/

namespace Hover

/-- Outcome of an os.Stat probe: the path exists (a file or a directory,
`ok`), the error satisfies os.IsNotExist (`errNotExist`), or the stat failed
for another reason such as a permission error (`errOther`). -/
inductive StatResult where
  | ok
  | errNotExist
  | errOther
deriving DecidableEq, Repr

/-- Project metadata read from pubspec.yaml: the fields of the Go PubSpec the
packaging code reads (Name, Version, Author, Description). -/
structure PubSpec where
  Name : String
  Version : String
  Author : String
  Description : String
deriving DecidableEq, Repr

/-- One observable side effect of the packaging code.  The `exitFail msg`
action models a fatal diagnostic printed by fmt.Printf or fmt.Println followed
by os.Exit(1), a non-zero process exit; formatted Go error values are elided
from the modelled messages.  The `writeFile` action collapses os.Create, the
line-by-line WriteString loop and Close into one attempt carrying the list of
written lines. -/
inductive Action where
  | printMsg (msg : String)
  | mkdirAll (path : String)
  | writeFile (path : String) (content : List String)
  | chmod (path : String)
  | mkTempDir (path : String)
  | copyDir (src : String) (dst : String)
  | execPackager (bin : String) (args : List String) (dir : String)
  | rename (src : String) (dst : String)
  | removeAll (path : String)
  | exitFail (msg : String)
deriving DecidableEq, Repr

/-- The environment a packaging command runs in: project metadata, the
black-box collaborators of the core (runtime.GOOS and GOARCH, the current OS
user, the build root, the output-directory provider), and the outcome of
every external operation the code may attempt. -/
structure Env where
  /-- runtime.GOOS. -/
  GOOS : String
  /-- runtime.GOARCH. -/
  GOARCH : String
  /-- getPubSpec(): the project metadata provider. -/
  pubSpec : PubSpec
  /-- Username of user.Current(). -/
  username : String
  /-- Whether user.Current() succeeds. -/
  userCurrentOk : Bool
  /-- The build root buildPath (a package-level variable of the repository,
  defined outside this file). -/
  buildPath : String
  /-- Black-box provider outputDirectoryPath(name). -/
  outputDirectoryPath : String → String
  /-- Result of os.Stat at a path. -/
  statPath : String → StatResult
  /-- Whether exec.LookPath finds a binary on the search path. -/
  lookPathOk : String → Bool
  /-- The unique path ioutil.TempDir would return. -/
  tmpDirPath : String
  /-- Whether ioutil.TempDir succeeds. -/
  tmpDirOk : Bool
  /-- Whether os.MkdirAll succeeds at a path. -/
  mkdirOk : String → Bool
  /-- Whether os.Create, the line writes and Close all succeed at a path (the
  code aborts on the first of these that fails). -/
  createFileOk : String → Bool
  /-- Whether os.Chmod succeeds at a path. -/
  chmodOk : String → Bool
  /-- Whether copy.Copy from a source to a destination succeeds. -/
  copyOk : String → String → Bool
  /-- Whether the spawned native packager process exits successfully. -/
  packagerOk : Bool
  /-- Whether os.Rename succeeds. -/
  renameOk : Bool
  /-- Whether os.RemoveAll succeeds. -/
  removeAllOk : Bool

/-- Go filepath.Join of two components, with filepath.Abs modelled as the
identity (the code treats a failure of absolute-path resolution as fatal;
such failures are not modelled). -/
def filepathJoin (a b : String) : String := a ++ "/" ++ b

/-- The packagingPath variable: filepath.Join(buildPath, "packaging"). -/
def packagingPath (buildPath : String) : String := filepathJoin buildPath "packaging"

/-- packagingFormatPath: the location of a format's configuration tree,
filepath.Join(packagingPath, packagingFormat) resolved absolute. -/
def packagingFormatPath (buildPath packagingFormat : String) : String :=
  filepathJoin (packagingPath buildPath) packagingFormat

/-- The linuxPackagingDependencies list of the source. -/
def linuxPackagingDependencies : List String :=
  ["libx11-6", "libxrandr2", "libxcursor1", "libxinerama1"]

/-- Go strings.ReplaceAll with a one-character pattern and the empty
replacement: every occurrence of the character is deleted. -/
def replaceAllEmpty : List Char → Char → List Char
  | [], _ => []
  | x :: xs, c => if x = c then replaceAllEmpty xs c else x :: replaceAllEmpty xs c

/-- removeDashesAndUnderscores:
strings.ReplaceAll(strings.ReplaceAll(projectName, "-", ""), "_", ""). -/
def removeDashesAndUnderscores (projectName : String) : String :=
  String.mk (replaceAllEmpty (replaceAllEmpty projectName.data '-') '_')

/-- First element of strings.Split(s, "-"): the prefix before the first dash,
or the whole string when there is none. -/
def firstSplitSegment (s : String) : String :=
  String.mk (s.data.takeWhile (fun c => c ≠ '-'))

/-- assertCorrectOS exits iff runtime.GOOS differs from the format's OS
prefix strings.Split(packagingFormat, "-")[0]. -/
def assertCorrectOSFails (env : Env) (packagingFormat : String) : Bool :=
  env.GOOS != firstSplitSegment packagingFormat

/-- Diagnostic of assertCorrectOS. -/
def assertCorrectOSMsg (packagingFormat : String) : String :=
  "hover: " ++ packagingFormat ++ " only works on " ++ firstSplitSegment packagingFormat

/-- Diagnostic of createPackagingFormatDirectory when the existence probe does
not report IsNotExist. -/
def alreadyExistsMsg (packagingFormat : String) : String :=
  "hover: A file or directory named `" ++ packagingFormat ++
    "` already exists. Cannot continue packaging init for " ++ packagingFormat ++ "."

/-- Diagnostic of assertPackagingFormatInitialized. -/
def notInitializedMsg (packagingFormat : String) : String :=
  "hover: " ++ packagingFormat ++ " is not initialized for packaging. Please run `hover init-packaging " ++
    packagingFormat ++ "` first."

/-- Completion notice of printInitFinished (first printed line). -/
def initFinishedMsg (packagingFormat : String) : String :=
  "hover: go/packaging/" ++ packagingFormat ++
    " has been created. You can modify the configuration files and add it to git."

/-- createPackagingFormatDirectory: probe the format path with os.Stat; any
outcome other than an IsNotExist error is refused as already existing; then
MkdirAll the path.  Returns the attempted actions and whether control
continues (false models os.Exit(1)). -/
def createPackagingFormatDirectory (env : Env) (packagingFormat : String) :
    List Action × Bool :=
  let p := packagingFormatPath env.buildPath packagingFormat
  if env.statPath p ≠ StatResult.errNotExist then
    ([Action.exitFail (alreadyExistsMsg packagingFormat)], false)
  else if env.mkdirOk p then ([Action.mkdirAll p], true)
  else ([Action.mkdirAll p,
         Action.exitFail ("hover: Failed to create " ++ packagingFormat ++ " directory " ++ p)],
        false)

/-- Sequence a step that may exit with the remainder of a trace. -/
def seqA (s : List Action × Bool) (rest : List Action) : List Action :=
  if s.2 then s.1 ++ rest else s.1

/-- assertPackagingFormatInitialized exits iff the os.Stat error at the
format's configuration path satisfies os.IsNotExist. -/
def assertPackagingFormatInitializedFails (env : Env) (packagingFormat : String) : Bool :=
  decide (env.statPath (packagingFormatPath env.buildPath packagingFormat) = StatResult.errNotExist)

/-- snapcraftFileContent: the lines initLinuxSnap writes to
snap/snapcraft.yaml. -/
def snapcraftFileContent (projectName : String) (env : Env) : List String :=
  [ "name: " ++ removeDashesAndUnderscores projectName,
    "base: core18",
    "version: '" ++ env.pubSpec.Version ++ "'",
    "summary: " ++ env.pubSpec.Description,
    "description: |",
    "  " ++ env.pubSpec.Description,
    "confinement: devmode",
    "grade: devel",
    "apps:",
    "  " ++ removeDashesAndUnderscores projectName ++ ":",
    "    command: " ++ projectName,
    "    desktop: local/" ++ projectName ++ ".desktop",
    "parts:",
    "  desktop:",
    "    plugin: dump",
    "    source: snap",
    "  assets:",
    "    plugin: dump",
    "    source: assets",
    "  app:",
    "    plugin: dump",
    "    source: build",
    "    stage-packages:" ]
  ++ linuxPackagingDependencies.map (fun dependency => "      - " ++ dependency)

/-- desktopFileContent written by initLinuxSnap to snap/local. -/
def snapDesktopFileContent (projectName : String) (env : Env) : List String :=
  [ "[Desktop Entry]",
    "Encoding=UTF-8",
    "Version=" ++ env.pubSpec.Version,
    "Type=Application",
    "Terminal=false",
    "Exec=/" ++ projectName,
    "Name=" ++ projectName,
    "Icon=/icon.png" ]

/-- controlFileContent written by initLinuxDeb to DEBIAN/control.  The
Maintainer line is built from getPubSpec().Author, the raw pubspec field, not
from the local author variable that holds the username fallback. -/
def controlFileContent (projectName : String) (env : Env) : List String :=
  [ "Package: " ++ removeDashesAndUnderscores projectName,
    "Architecture: " ++ env.GOARCH,
    "Maintainer: @" ++ env.pubSpec.Author,
    "Priority: optional",
    "Version: " ++ env.pubSpec.Version,
    "Description: " ++ env.pubSpec.Description,
    "Depends: " ++ String.intercalate "," linuxPackagingDependencies ]

/-- binFileContent: the two-line shell wrapper initLinuxDeb writes under
usr/bin. -/
def binFileContent (projectName : String) : List String :=
  [ "#!/bin/sh",
    "/usr/lib/" ++ projectName ++ "/" ++ projectName ]

/-- desktopFileContent written by initLinuxDeb to usr/share/applications. -/
def debDesktopFileContent (projectName : String) (env : Env) : List String :=
  [ "[Desktop Entry]",
    "Encoding=UTF-8",
    "Version=" ++ env.pubSpec.Version,
    "Type=Application",
    "Terminal=false",
    "Exec=/usr/bin/" ++ projectName,
    "Name=" ++ projectName,
    "Icon=/usr/lib/" ++ projectName ++ "/assets/icon.png" ]

/-- The local author variable of initLinuxDeb after the fallback branch: the
OS username when the pubspec author field is empty, the pubspec author
otherwise. -/
def debEffectiveAuthor (env : Env) : String :=
  if env.pubSpec.Author = "" then env.username else env.pubSpec.Author

/-- Trace of initLinuxSnap: OS check, creation of the format directory, the
snap/local directory, the snapcraft.yaml manifest and the desktop-entry
file, then the completion notice. -/
def initLinuxSnap (projectName : String) (env : Env) : List Action :=
  let snapDirectoryPath := packagingFormatPath env.buildPath "linux-snap"
  let snapLocalDirectoryPath := filepathJoin (filepathJoin snapDirectoryPath "snap") "local"
  let snapcraftFilePath := filepathJoin (filepathJoin snapDirectoryPath "snap") "snapcraft.yaml"
  let desktopFilePath := filepathJoin snapLocalDirectoryPath (projectName ++ ".desktop")
  if assertCorrectOSFails env "linux-snap" then [Action.exitFail (assertCorrectOSMsg "linux-snap")] else
  seqA (createPackagingFormatDirectory env "linux-snap")
    (Action.mkdirAll snapLocalDirectoryPath ::
     if env.mkdirOk snapLocalDirectoryPath = false then
       [Action.exitFail ("hover: Failed to create snap local directory " ++ snapDirectoryPath)] else
     Action.writeFile snapcraftFilePath (snapcraftFileContent projectName env) ::
     if env.createFileOk snapcraftFilePath = false then
       [Action.exitFail "hover: Could not write snapcraft.yaml"] else
     Action.writeFile desktopFilePath (snapDesktopFileContent projectName env) ::
     if env.createFileOk desktopFilePath = false then
       [Action.exitFail ("hover: Could not write " ++ projectName ++ ".desktop")] else
     [Action.printMsg (initFinishedMsg "linux-snap")])

/-- The scaffolding tail of initLinuxDeb, after the author fallback: create
the format directory, the DEBIAN, usr/bin and usr/share/applications
directories, then write the control file, the executable shell wrapper
(made executable with Chmod) and the desktop entry. -/
def initLinuxDebScaffold (projectName : String) (env : Env) : List Action :=
  let debDirectoryPath := packagingFormatPath env.buildPath "linux-deb"
  let debDebianDirectoryPath := filepathJoin debDirectoryPath "DEBIAN"
  let binDirectoryPath := filepathJoin (filepathJoin debDirectoryPath "usr") "bin"
  let applicationsDirectoryPath :=
    filepathJoin (filepathJoin (filepathJoin debDirectoryPath "usr") "share") "applications"
  let controlFilePath := filepathJoin debDebianDirectoryPath "control"
  let binFilePath := filepathJoin binDirectoryPath (removeDashesAndUnderscores projectName)
  let desktopFilePath := filepathJoin applicationsDirectoryPath (projectName ++ ".desktop")
  seqA (createPackagingFormatDirectory env "linux-deb")
    (Action.mkdirAll debDebianDirectoryPath ::
     if env.mkdirOk debDebianDirectoryPath = false then
       [Action.exitFail ("hover: Failed to create DEBIAN directory " ++ debDebianDirectoryPath)] else
     Action.mkdirAll binDirectoryPath ::
     if env.mkdirOk binDirectoryPath = false then
       [Action.exitFail ("hover: Failed to create bin directory " ++ binDirectoryPath)] else
     Action.mkdirAll applicationsDirectoryPath ::
     if env.mkdirOk applicationsDirectoryPath = false then
       [Action.exitFail ("hover: Failed to create applications directory " ++ applicationsDirectoryPath)] else
     Action.writeFile controlFilePath (controlFileContent projectName env) ::
     if env.createFileOk controlFilePath = false then
       [Action.exitFail "hover: Could not write control file"] else
     Action.writeFile binFilePath (binFileContent projectName) ::
     if env.createFileOk binFilePath = false then
       [Action.exitFail "hover: Could not write bin file"] else
     Action.chmod binFilePath ::
     if env.chmodOk binFilePath = false then
       [Action.exitFail "hover: Failed to change file permissions for bin file"] else
     Action.writeFile desktopFilePath (debDesktopFileContent projectName env) ::
     if env.createFileOk desktopFilePath = false then
       [Action.exitFail ("hover: Could not write " ++ projectName ++ ".desktop file")] else
     [Action.printMsg (initFinishedMsg "linux-deb")])

/-- Trace of initLinuxDeb.  Before scaffolding, an empty pubspec author field
triggers the username fallback: a warning is printed, user.Current is
consulted (a failure is fatal) and the username is announced as the
replacement author. -/
def initLinuxDeb (projectName : String) (env : Env) : List Action :=
  if assertCorrectOSFails env "linux-deb" then [Action.exitFail (assertCorrectOSMsg "linux-deb")] else
  if env.pubSpec.Author = "" then
    Action.printMsg "hover: Missing author field in pubspec.yaml" ::
    if env.userCurrentOk = false then [Action.exitFail "hover: Couldn't get current user"] else
    Action.printMsg ("hover: Using this username from system instead: " ++ env.username) ::
    initLinuxDebScaffold projectName env
  else initLinuxDebScaffold projectName env

/-- Trace of buildLinuxSnap: OS check, snapcraft lookup, temporary staging
directory, three staged copies (assets, linux build output, the scaffolded
configuration tree), snapcraft invocation, rename of the version-bearing
artifact to the canonical unversioned output path, and removal of the
staging directory. -/
def buildLinuxSnap (projectName : String) (env : Env) : List Action :=
  let tmpPath := env.tmpDirPath
  let assetsSrc := filepathJoin env.buildPath "assets"
  let assetsDst := filepathJoin tmpPath "assets"
  let buildSrc := env.outputDirectoryPath "linux"
  let buildDst := filepathJoin tmpPath "build"
  let pkgSrc := packagingFormatPath env.buildPath "linux-snap"
  let renameSrc := filepathJoin tmpPath
    (removeDashesAndUnderscores projectName ++ "_" ++ env.pubSpec.Version ++ "_" ++ env.GOARCH ++ ".snap")
  let renameDst := filepathJoin (env.outputDirectoryPath "linux-snap")
    (removeDashesAndUnderscores projectName ++ "_" ++ env.GOARCH ++ ".snap")
  if assertCorrectOSFails env "linux-snap" then [Action.exitFail (assertCorrectOSMsg "linux-snap")] else
  if env.lookPathOk "snapcraft" = false then
    [Action.exitFail "hover: Failed to lookup `snapcraft` executable. Please install snapcraft."] else
  if env.tmpDirOk = false then [Action.exitFail "hover: Couldn't get temporary build directory"] else
  Action.mkTempDir tmpPath ::
  Action.copyDir assetsSrc assetsDst ::
  if env.copyOk assetsSrc assetsDst = false then
    [Action.exitFail "hover: Could not copy assets folder"] else
  Action.copyDir buildSrc buildDst ::
  if env.copyOk buildSrc buildDst = false then
    [Action.exitFail "hover: Could not copy build folder"] else
  Action.copyDir pkgSrc tmpPath ::
  if env.copyOk pkgSrc tmpPath = false then
    [Action.exitFail "hover: Could not copy packaging configuration folder"] else
  Action.execPackager "snapcraft" [] tmpPath ::
  if env.packagerOk = false then [Action.exitFail "hover: Failed to package snap"] else
  Action.rename renameSrc renameDst ::
  if env.renameOk = false then [Action.exitFail "hover: Could not move snap file"] else
  Action.removeAll tmpPath ::
  if env.removeAllOk = false then
    [Action.exitFail "hover: Could not remove packaging configuration folder"] else
  []

/-- Trace of buildLinuxDeb: OS check, dpkg-deb lookup, temporary staging
directory, two staged copies (linux build output into usr/lib of the staging
root, the scaffolded configuration tree into the staging root), dpkg-deb
invocation naming the output file, rename of the artifact to the canonical
output path, and removal of the staging directory. -/
def buildLinuxDeb (projectName : String) (env : Env) : List Action :=
  let tmpPath := env.tmpDirPath
  let libDirectoryPath := filepathJoin (filepathJoin tmpPath "usr") "lib"
  let buildSrc := env.outputDirectoryPath "linux"
  let buildDst := filepathJoin libDirectoryPath projectName
  let pkgSrc := packagingFormatPath env.buildPath "linux-deb"
  let outputFileName := removeDashesAndUnderscores projectName ++ "_" ++ env.GOARCH ++ ".deb"
  let outputFilePath := filepathJoin (env.outputDirectoryPath "linux-deb") outputFileName
  if assertCorrectOSFails env "linux-deb" then [Action.exitFail (assertCorrectOSMsg "linux-deb")] else
  if env.lookPathOk "dpkg-deb" = false then
    [Action.exitFail "hover: Failed to lookup `dpkg-deb` executable. Please install dpkg-deb."] else
  if env.tmpDirOk = false then [Action.exitFail "hover: Couldn't get temporary build directory"] else
  Action.mkTempDir tmpPath ::
  Action.copyDir buildSrc buildDst ::
  if env.copyOk buildSrc buildDst = false then
    [Action.exitFail "hover: Could not copy build folder"] else
  Action.copyDir pkgSrc tmpPath ::
  if env.copyOk pkgSrc tmpPath = false then
    [Action.exitFail "hover: Could not copy packaging configuration folder"] else
  Action.execPackager "dpkg-deb" ["--build", ".", outputFileName] tmpPath ::
  if env.packagerOk = false then [Action.exitFail "hover: Failed to package deb"] else
  Action.rename (filepathJoin tmpPath outputFileName) outputFilePath ::
  if env.renameOk = false then [Action.exitFail "hover: Could not move deb file"] else
  Action.removeAll tmpPath ::
  if env.removeAllOk = false then
    [Action.exitFail "hover: Could not remove packaging configuration folder"] else
  []

/-- Modelled from the spec: the build command wiring (repo file cmd/build.go,
which is not among the reviewed source files) runs the initialization guard
before invoking the format's builder - the spec's control flow states that a
caller "calls the Stager+Builder pipeline any number of times (guard: fails
if the format was never scaffolded)".  The guard is the
assertPackagingFormatInitialized check declared in the reviewed source. -/
def buildCommandLinuxSnap (projectName : String) (env : Env) : List Action :=
  if assertPackagingFormatInitializedFails env "linux-snap" then
    [Action.exitFail (notInitializedMsg "linux-snap")]
  else buildLinuxSnap projectName env

/-- Modelled from the spec: the build command wiring for linux-deb, with the
initialization guard run before the builder (see buildCommandLinuxSnap). -/
def buildCommandLinuxDeb (projectName : String) (env : Env) : List Action :=
  if assertPackagingFormatInitializedFails env "linux-deb" then
    [Action.exitFail (notInitializedMsg "linux-deb")]
  else buildLinuxDeb projectName env

/-- Whether a trace records a fatal exit (a non-zero process exit). -/
def containsExitFail (tr : List Action) : Bool :=
  tr.any fun a => match a with | Action.exitFail _ => true | _ => false

/-- Whether a trace creates a temporary staging directory. -/
def containsMkTempDir (tr : List Action) : Bool :=
  tr.any fun a => match a with | Action.mkTempDir _ => true | _ => false

/-- Whether an action mutates the filesystem. -/
def mutates : Action → Bool
  | Action.mkdirAll _ => true
  | Action.writeFile _ _ => true
  | Action.chmod _ => true
  | Action.mkTempDir _ => true
  | Action.copyDir _ _ => true
  | Action.rename _ _ => true
  | Action.removeAll _ => true
  | _ => false

/-- Source paths of the copy operations of a trace. -/
def copySrcs (tr : List Action) : List String :=
  tr.filterMap fun a => match a with | Action.copyDir s _ => some s | _ => none

/-- Destination paths of the copy operations of a trace. -/
def copyDsts (tr : List Action) : List String :=
  tr.filterMap fun a => match a with | Action.copyDir _ d => some d | _ => none

/-- A concrete all-success environment on a linux host, for evaluating the
traces at concrete inputs. -/
def sampleEnv : Env where
  GOOS := "linux"
  GOARCH := "amd64"
  pubSpec := { Name := "my-app", Version := "1.2.3", Author := "jane", Description := "demo" }
  username := "root"
  userCurrentOk := true
  buildPath := "go"
  outputDirectoryPath := fun name => "go/build/outputs/" ++ name
  statPath := fun _ => StatResult.errNotExist
  lookPathOk := fun _ => true
  tmpDirPath := "/tmp/hover-build"
  tmpDirOk := true
  mkdirOk := fun _ => true
  createFileOk := fun _ => true
  chmodOk := fun _ => true
  copyOk := fun _ _ => true
  packagerOk := true
  renameOk := true
  removeAllOk := true

theorem mem_replaceAllEmpty {a c : Char} {l : List Char} :
    a ∈ replaceAllEmpty l c ↔ a ∈ l ∧ a ≠ c := by
  induction l with
  | nil => simp [replaceAllEmpty]
  | cons x xs ih =>
    simp only [replaceAllEmpty]
    by_cases hx : x = c
    · rw [if_pos hx, ih]
      subst hx
      simp only [List.mem_cons]
      constructor
      · exact fun ⟨h1, h2⟩ => ⟨Or.inr h1, h2⟩
      · rintro ⟨rfl | h1, h2⟩
        · exact absurd rfl h2
        · exact ⟨h1, h2⟩
    · rw [if_neg hx]
      simp only [List.mem_cons, ih]
      constructor
      · rintro (rfl | ⟨h1, h2⟩)
        · exact ⟨Or.inl rfl, hx⟩
        · exact ⟨Or.inr h1, h2⟩
      · rintro ⟨rfl | h1, h2⟩
        · exact Or.inl rfl
        · exact Or.inr ⟨h1, h2⟩

theorem replaceAllEmpty_eq_self {c : Char} {l : List Char} (h : c ∉ l) :
    replaceAllEmpty l c = l := by
  induction l with
  | nil => rfl
  | cons x xs ih =>
    simp only [List.mem_cons, not_or] at h
    rw [replaceAllEmpty, if_neg (fun hh => h.1 hh.symm), ih h.2]

theorem dash_not_mem_removeDashesAndUnderscores (s : String) :
    '-' ∉ (removeDashesAndUnderscores s).data := by
  intro h
  have h2 := (mem_replaceAllEmpty.mp h).1
  exact (mem_replaceAllEmpty.mp h2).2 rfl

theorem underscore_not_mem_removeDashesAndUnderscores (s : String) :
    '_' ∉ (removeDashesAndUnderscores s).data := by
  intro h
  exact (mem_replaceAllEmpty.mp h).2 rfl

/-- C5: removeDashesAndUnderscores leaves no dash and no underscore in its
result, and applying it twice yields the same string as applying it once. -/
theorem c5_removeDashesAndUnderscores_clean_idempotent (s : String) :
    '-' ∉ (removeDashesAndUnderscores s).data ∧
    '_' ∉ (removeDashesAndUnderscores s).data ∧
    removeDashesAndUnderscores (removeDashesAndUnderscores s) = removeDashesAndUnderscores s := by
  refine ⟨dash_not_mem_removeDashesAndUnderscores s,
    underscore_not_mem_removeDashesAndUnderscores s, ?_⟩
  have key : replaceAllEmpty (replaceAllEmpty (removeDashesAndUnderscores s).data '-') '_' =
      (removeDashesAndUnderscores s).data := by
    rw [replaceAllEmpty_eq_self (dash_not_mem_removeDashesAndUnderscores s),
        replaceAllEmpty_eq_self (underscore_not_mem_removeDashesAndUnderscores s)]
  exact congrArg String.mk key

/-- When a string holds a dash or an underscore, removeDashesAndUnderscores
changes it. -/
theorem removeDashesAndUnderscores_ne_of_mem {s : String}
    (h : '-' ∈ s.data ∨ '_' ∈ s.data) :
    removeDashesAndUnderscores s ≠ s := by
  intro he
  have hd := congrArg String.data he
  rcases h with h | h
  · exact dash_not_mem_removeDashesAndUnderscores s (hd ▸ h)
  · exact underscore_not_mem_removeDashesAndUnderscores s (hd ▸ h)

/-- C10: any stat outcome other than an IsNotExist error - the path existing
as a directory or a file, or a probe failing for another reason such as a
permission error - makes createPackagingFormatDirectory stop with the
already-initialized error, never attempting the directory creation. -/
theorem c10_stat_probe_treats_other_errors_as_existing (env : Env) (packagingFormat : String)
    (h : env.statPath (packagingFormatPath env.buildPath packagingFormat) = StatResult.ok ∨
         env.statPath (packagingFormatPath env.buildPath packagingFormat) = StatResult.errOther) :
    createPackagingFormatDirectory env packagingFormat =
      ([Action.exitFail (alreadyExistsMsg packagingFormat)], false) := by
  rw [createPackagingFormatDirectory]
  rcases h with h | h <;> rw [if_pos (by rw [h]; intro hc; cases hc)]

/-- Witness for C10 at a concrete environment whose stat probe reports an
existing path. -/
theorem c10_stat_probe_treats_other_errors_as_existing_witness :
    createPackagingFormatDirectory { sampleEnv with statPath := fun _ => StatResult.ok } "linux-deb" =
      ([Action.exitFail (alreadyExistsMsg "linux-deb")], false) :=
  c10_stat_probe_treats_other_errors_as_existing
    { sampleEnv with statPath := fun _ => StatResult.ok } "linux-deb" (Or.inl rfl)

/-- C1: at a concrete linux environment whose pubspec author field is empty,
initLinuxDeb warns about the missing author and announces the OS-username
fallback, but the DEBIAN/control file it writes still builds the Maintainer
line from the raw pubspec author: the line is "Maintainer: @", and the line
the fallback would produce does not occur in the file. -/
theorem c1_control_file_ignores_username_fallback :
    (Action.printMsg "hover: Missing author field in pubspec.yaml" ∈
      initLinuxDeb "myapp" { sampleEnv with
        pubSpec := { Name := "myapp", Version := "1.2.3", Author := "", Description := "demo" } }) ∧
    (Action.printMsg "hover: Using this username from system instead: root" ∈
      initLinuxDeb "myapp" { sampleEnv with
        pubSpec := { Name := "myapp", Version := "1.2.3", Author := "", Description := "demo" } }) ∧
    debEffectiveAuthor { sampleEnv with
        pubSpec := { Name := "myapp", Version := "1.2.3", Author := "", Description := "demo" } } = "root" ∧
    (Action.writeFile (filepathJoin (filepathJoin (packagingFormatPath "go" "linux-deb") "DEBIAN") "control")
        (controlFileContent "myapp" { sampleEnv with
          pubSpec := { Name := "myapp", Version := "1.2.3", Author := "", Description := "demo" } }) ∈
      initLinuxDeb "myapp" { sampleEnv with
        pubSpec := { Name := "myapp", Version := "1.2.3", Author := "", Description := "demo" } }) ∧
    (controlFileContent "myapp" { sampleEnv with
        pubSpec := { Name := "myapp", Version := "1.2.3", Author := "", Description := "demo" } }).get? 2 =
      some "Maintainer: @" ∧
    ("Maintainer: @" ++ "root") ∉ controlFileContent "myapp" { sampleEnv with
        pubSpec := { Name := "myapp", Version := "1.2.3", Author := "", Description := "demo" } } := by
  decide

/-- C3: when the stat probe at the format's configuration path reports
IsNotExist - the format was never scaffolded - the build command stops at the
initialization guard with the not-initialized error, and no temporary staging
directory is ever created, for both formats. -/
theorem c3_build_uninitialized_fails_before_staging (projectName : String) (env : Env)
    (hs : env.statPath (packagingFormatPath env.buildPath "linux-snap") = StatResult.errNotExist)
    (hd : env.statPath (packagingFormatPath env.buildPath "linux-deb") = StatResult.errNotExist) :
    buildCommandLinuxSnap projectName env = [Action.exitFail (notInitializedMsg "linux-snap")] ∧
    buildCommandLinuxDeb projectName env = [Action.exitFail (notInitializedMsg "linux-deb")] ∧
    containsMkTempDir (buildCommandLinuxSnap projectName env) = false ∧
    containsMkTempDir (buildCommandLinuxDeb projectName env) = false := by
  have hbs : assertPackagingFormatInitializedFails env "linux-snap" = true := by
    rw [assertPackagingFormatInitializedFails, hs]; rfl
  have hbd : assertPackagingFormatInitializedFails env "linux-deb" = true := by
    rw [assertPackagingFormatInitializedFails, hd]; rfl
  have h1 : buildCommandLinuxSnap projectName env = [Action.exitFail (notInitializedMsg "linux-snap")] := by
    simp [buildCommandLinuxSnap, hbs]
  have h2 : buildCommandLinuxDeb projectName env = [Action.exitFail (notInitializedMsg "linux-deb")] := by
    simp [buildCommandLinuxDeb, hbd]
  refine ⟨h1, h2, ?_, ?_⟩
  · rw [h1]; rfl
  · rw [h2]; rfl

/-- Witness for C3 at a concrete environment whose format directories were
never scaffolded. -/
theorem c3_build_uninitialized_fails_before_staging_witness :
    buildCommandLinuxSnap "my-app" sampleEnv = [Action.exitFail (notInitializedMsg "linux-snap")] ∧
    buildCommandLinuxDeb "my-app" sampleEnv = [Action.exitFail (notInitializedMsg "linux-deb")] ∧
    containsMkTempDir (buildCommandLinuxSnap "my-app" sampleEnv) = false ∧
    containsMkTempDir (buildCommandLinuxDeb "my-app" sampleEnv) = false :=
  c3_build_uninitialized_fails_before_staging "my-app" sampleEnv rfl rfl

/-- C4: with the native packager executable absent from the execution search
path, each format's build fails - its trace records the fatal non-zero exit -
and never creates a temporary staging directory. -/
theorem c4_missing_packager_fails_before_staging (projectName : String) (env : Env)
    (hs : env.lookPathOk "snapcraft" = false)
    (hd : env.lookPathOk "dpkg-deb" = false) :
    containsExitFail (buildLinuxSnap projectName env) = true ∧
    containsMkTempDir (buildLinuxSnap projectName env) = false ∧
    containsExitFail (buildLinuxDeb projectName env) = true ∧
    containsMkTempDir (buildLinuxDeb projectName env) = false := by
  cases ho : assertCorrectOSFails env "linux-snap" <;>
    cases ho2 : assertCorrectOSFails env "linux-deb" <;>
      refine ⟨?_, ?_, ?_, ?_⟩ <;>
        simp [buildLinuxSnap, buildLinuxDeb, ho, ho2, hs, hd,
          containsExitFail, containsMkTempDir]

/-- Witness for C4 at a concrete environment whose search path holds neither
snapcraft nor dpkg-deb. -/
theorem c4_missing_packager_fails_before_staging_witness :
    containsExitFail (buildLinuxSnap "my-app" { sampleEnv with lookPathOk := fun _ => false }) = true ∧
    containsMkTempDir (buildLinuxSnap "my-app" { sampleEnv with lookPathOk := fun _ => false }) = false ∧
    containsExitFail (buildLinuxDeb "my-app" { sampleEnv with lookPathOk := fun _ => false }) = true ∧
    containsMkTempDir (buildLinuxDeb "my-app" { sampleEnv with lookPathOk := fun _ => false }) = false :=
  c4_missing_packager_fails_before_staging "my-app"
    { sampleEnv with lookPathOk := fun _ => false } rfl rfl

theorem createPackagingFormatDirectory_of_exists (env : Env) (packagingFormat : String)
    (h : env.statPath (packagingFormatPath env.buildPath packagingFormat) ≠ StatResult.errNotExist) :
    createPackagingFormatDirectory env packagingFormat =
      ([Action.exitFail (alreadyExistsMsg packagingFormat)], false) := by
  rw [createPackagingFormatDirectory, if_pos h]

/-- C8: when the stat probe at the format's configuration path does not
report IsNotExist - a directory or a file already sits at that path - both
scaffolders fail without one filesystem mutation in their traces; on a linux
host (and, for deb, whenever the author fallback path does not intervene)
the failure is exactly the already-exists error. -/
theorem c8_init_existing_directory_untouched (projectName : String) (env : Env)
    (hs : env.statPath (packagingFormatPath env.buildPath "linux-snap") ≠ StatResult.errNotExist)
    (hd : env.statPath (packagingFormatPath env.buildPath "linux-deb") ≠ StatResult.errNotExist) :
    containsExitFail (initLinuxSnap projectName env) = true ∧
    (initLinuxSnap projectName env).any mutates = false ∧
    containsExitFail (initLinuxDeb projectName env) = true ∧
    (initLinuxDeb projectName env).any mutates = false ∧
    (env.GOOS = "linux" →
      initLinuxSnap projectName env = [Action.exitFail (alreadyExistsMsg "linux-snap")]) ∧
    (env.GOOS = "linux" → env.pubSpec.Author ≠ "" →
      initLinuxDeb projectName env = [Action.exitFail (alreadyExistsMsg "linux-deb")]) := by
  have hcs := createPackagingFormatDirectory_of_exists env "linux-snap" hs
  have hcd := createPackagingFormatDirectory_of_exists env "linux-deb" hd
  refine ⟨?_, ?_, ?_, ?_, fun hGOOS => ?_, fun hGOOS hA => ?_⟩
  · cases ho : assertCorrectOSFails env "linux-snap" <;>
      simp [initLinuxSnap, ho, hcs, seqA, containsExitFail]
  · cases ho : assertCorrectOSFails env "linux-snap" <;>
      simp [initLinuxSnap, ho, hcs, seqA, mutates]
  · cases ho : assertCorrectOSFails env "linux-deb" <;>
      by_cases hA : env.pubSpec.Author = "" <;>
        cases hu : env.userCurrentOk <;>
          simp [initLinuxDeb, initLinuxDebScaffold, ho, hA, hu, hcd, seqA, containsExitFail]
  · cases ho : assertCorrectOSFails env "linux-deb" <;>
      by_cases hA : env.pubSpec.Author = "" <;>
        cases hu : env.userCurrentOk <;>
          simp [initLinuxDeb, initLinuxDebScaffold, ho, hA, hu, hcd, seqA, mutates]
  · have ho : assertCorrectOSFails env "linux-snap" = false := by
      rw [assertCorrectOSFails, hGOOS]; decide
    simp [initLinuxSnap, ho, hcs, seqA]
  · have ho : assertCorrectOSFails env "linux-deb" = false := by
      rw [assertCorrectOSFails, hGOOS]; decide
    simp [initLinuxDeb, initLinuxDebScaffold, ho, hA, hcd, seqA]

/-- A concrete environment whose stat probe reports every path as already
existing. -/
def sampleEnvExisting : Env := { sampleEnv with statPath := fun _ => StatResult.ok }

/-- Witness for C8 at a concrete environment whose stat probe reports both
format paths as already existing. -/
theorem c8_init_existing_directory_untouched_witness :
    containsExitFail (initLinuxSnap "my-app" sampleEnvExisting) = true ∧
    (initLinuxSnap "my-app" sampleEnvExisting).any mutates = false ∧
    containsExitFail (initLinuxDeb "my-app" sampleEnvExisting) = true ∧
    (initLinuxDeb "my-app" sampleEnvExisting).any mutates = false ∧
    (sampleEnvExisting.GOOS = "linux" →
      initLinuxSnap "my-app" sampleEnvExisting = [Action.exitFail (alreadyExistsMsg "linux-snap")]) ∧
    (sampleEnvExisting.GOOS = "linux" → sampleEnvExisting.pubSpec.Author ≠ "" →
      initLinuxDeb "my-app" sampleEnvExisting = [Action.exitFail (alreadyExistsMsg "linux-deb")]) :=
  c8_init_existing_directory_untouched "my-app" sampleEnvExisting (by decide) (by decide)

/-- Every removeAll action of a trace comes after an earlier rename action:
a fold that scans the trace and refuses a removeAll not preceded by some
rename. -/
def renameSeen : Bool → List Action → Bool
  | _, [] => true
  | seen, Action.removeAll _ :: rest => seen && renameSeen seen rest
  | _, Action.rename _ _ :: rest => renameSeen true rest
  | seen, _ :: rest => renameSeen seen rest

/-- C7: in every execution of either build, whatever the environment makes
succeed or fail, a removal of the temporary staging directory is attempted
only after the produced artifact has been renamed to its canonical output
location: no removeAll in the trace precedes every rename. -/
theorem c7_cleanup_only_after_rename (projectName : String) (env : Env) :
    renameSeen false (buildLinuxSnap projectName env) = true ∧
    renameSeen false (buildLinuxDeb projectName env) = true := by
  constructor
  · simp only [buildLinuxSnap]
    repeat' split
    all_goals rfl
  · simp only [buildLinuxDeb]
    repeat' split
    all_goals rfl

theorem buildLinuxSnap_rename_eq (projectName : String) (env : Env) {s d : String}
    (h : Action.rename s d ∈ buildLinuxSnap projectName env) :
    s = filepathJoin env.tmpDirPath
        (removeDashesAndUnderscores projectName ++ "_" ++ env.pubSpec.Version ++ "_" ++
          env.GOARCH ++ ".snap") ∧
    d = filepathJoin (env.outputDirectoryPath "linux-snap")
        (removeDashesAndUnderscores projectName ++ "_" ++ env.GOARCH ++ ".snap") := by
  simp only [buildLinuxSnap] at h
  repeat' split at h
  all_goals simp_all

/-- C6: the only rename a snap build ever performs moves the version-bearing
artifact strippedName_version_arch.snap out of the staging root to the
canonical output path outputDir/strippedName_arch.snap; the destination
carries no version component and does not depend on the staging directory,
so two builds agreeing on the output directory and the architecture move
their artifacts to the same output path. -/
theorem c6_snap_rename_strips_version (projectName : String) (env env2 : Env) (s d s2 d2 : String)
    (h : Action.rename s d ∈ buildLinuxSnap projectName env)
    (h2 : Action.rename s2 d2 ∈ buildLinuxSnap projectName env2)
    (hout : env.outputDirectoryPath "linux-snap" = env2.outputDirectoryPath "linux-snap")
    (harch : env.GOARCH = env2.GOARCH) :
    s = filepathJoin env.tmpDirPath
        (removeDashesAndUnderscores projectName ++ "_" ++ env.pubSpec.Version ++ "_" ++
          env.GOARCH ++ ".snap") ∧
    d = filepathJoin (env.outputDirectoryPath "linux-snap")
        (removeDashesAndUnderscores projectName ++ "_" ++ env.GOARCH ++ ".snap") ∧
    d = d2 := by
  obtain ⟨e1, e2⟩ := buildLinuxSnap_rename_eq projectName env h
  obtain ⟨e3, e4⟩ := buildLinuxSnap_rename_eq projectName env2 h2
  refine ⟨e1, e2, ?_⟩
  rw [e2, e4, hout, harch]

/-- A concrete environment for a second snap build: another staging
directory and another project version, the same output directory and
architecture. -/
def sampleEnvSecond : Env :=
  { sampleEnv with
    tmpDirPath := "/tmp/hover-build-second",
    pubSpec := { Name := "my-app", Version := "2.0.0", Author := "jane", Description := "demo" } }

/-- Witness for C6: two concrete snap builds differing in version and
staging directory rename their artifacts to one output path. -/
theorem c6_snap_rename_strips_version_witness :
    "/tmp/hover-build/myapp_1.2.3_amd64.snap" =
      filepathJoin sampleEnv.tmpDirPath
        (removeDashesAndUnderscores "my-app" ++ "_" ++ sampleEnv.pubSpec.Version ++ "_" ++
          sampleEnv.GOARCH ++ ".snap") ∧
    "go/build/outputs/linux-snap/myapp_amd64.snap" =
      filepathJoin (sampleEnv.outputDirectoryPath "linux-snap")
        (removeDashesAndUnderscores "my-app" ++ "_" ++ sampleEnv.GOARCH ++ ".snap") ∧
    "go/build/outputs/linux-snap/myapp_amd64.snap" = "go/build/outputs/linux-snap/myapp_amd64.snap" :=
  c6_snap_rename_strips_version "my-app" sampleEnv sampleEnvSecond
    "/tmp/hover-build/myapp_1.2.3_amd64.snap" "go/build/outputs/linux-snap/myapp_amd64.snap"
    "/tmp/hover-build-second/myapp_2.0.0_amd64.snap" "go/build/outputs/linux-snap/myapp_amd64.snap"
    (by decide) (by decide) rfl rfl

theorem strData_append (a b : String) : (a ++ b).data = a.data ++ b.data := by
  cases a; cases b; rfl

theorem filepathJoin_data (a b : String) :
    (filepathJoin a b).data = a.data ++ '/' :: b.data := by
  have hslash : ("/" : String).data = ['/'] := rfl
  rw [filepathJoin, strData_append, strData_append, hslash, List.append_assoc]
  rfl

theorem filepathJoin_ne_left (a b : String) : filepathJoin a b ≠ a := by
  intro h
  have h2 := congrArg (fun s : String => s.data.length) h
  simp only [filepathJoin_data, List.length_append, List.length_cons] at h2
  omega

theorem assets_dst_ne_deb_lib_dst (tmp name : String) :
    filepathJoin tmp "assets" ≠
      filepathJoin (filepathJoin (filepathJoin tmp "usr") "lib") name := by
  intro h
  have h2 := congrArg (fun s : String => s.data.length) h
  have e1 : ("assets" : String).data.length = 6 := rfl
  have e2 : ("usr" : String).data.length = 3 := rfl
  have e3 : ("lib" : String).data.length = 3 := rfl
  simp only [filepathJoin_data, List.length_append, List.length_cons, e1, e2, e3] at h2
  omega

theorem copyDsts_buildLinuxDeb (projectName : String) (env : Env) :
    copyDsts (buildLinuxDeb projectName env) = [] ∨
    copyDsts (buildLinuxDeb projectName env) =
      [filepathJoin (filepathJoin (filepathJoin env.tmpDirPath "usr") "lib") projectName] ∨
    copyDsts (buildLinuxDeb projectName env) =
      [filepathJoin (filepathJoin (filepathJoin env.tmpDirPath "usr") "lib") projectName,
       env.tmpDirPath] := by
  simp only [buildLinuxDeb]
  repeat' split
  all_goals simp [copyDsts]

/-- C2 counterexample: at a concrete all-success environment the deb staging
step performs exactly two copies - the linux build output into the usr/lib
path of the staging root and the scaffolded configuration tree into the
staging root - and no copy reads the asset bundle or targets an assets
directory under the staging root, refuting the claim for the linux-deb
format. -/
theorem c2_counterexample_deb_stages_no_assets :
    filepathJoin sampleEnv.tmpDirPath "assets" ∉ copyDsts (buildLinuxDeb "my-app" sampleEnv) ∧
    filepathJoin sampleEnv.buildPath "assets" ∉ copySrcs (buildLinuxDeb "my-app" sampleEnv) ∧
    copyDsts (buildLinuxDeb "my-app" sampleEnv) =
      [filepathJoin (filepathJoin (filepathJoin sampleEnv.tmpDirPath "usr") "lib") "my-app",
       sampleEnv.tmpDirPath] := by
  decide

/-- C2 amended: only the snap staging step copies the asset bundle into an
assets directory under the staging root, besides the platform build output
and the scaffolded configuration tree; the deb staging step copies only the
platform build output (into the usr/lib path of the staging root) and the
configuration tree (into the staging root), and none of its copies targets
an assets directory under the staging root. -/
theorem c2_amended_only_snap_stages_assets (projectName : String) (env : Env)
    (hos : env.GOOS = "linux")
    (hlp : env.lookPathOk "snapcraft" = true)
    (htmp : env.tmpDirOk = true) :
    Action.copyDir (filepathJoin env.buildPath "assets") (filepathJoin env.tmpDirPath "assets")
      ∈ buildLinuxSnap projectName env ∧
    (∀ d ∈ copyDsts (buildLinuxDeb projectName env),
      d = filepathJoin (filepathJoin (filepathJoin env.tmpDirPath "usr") "lib") projectName ∨
      d = env.tmpDirPath) ∧
    filepathJoin env.tmpDirPath "assets" ∉ copyDsts (buildLinuxDeb projectName env) := by
  have ho : assertCorrectOSFails env "linux-snap" = false := by
    rw [assertCorrectOSFails, hos]; decide
  refine ⟨?_, ?_, ?_⟩
  · simp [buildLinuxSnap, ho, hlp, htmp]
  · rcases copyDsts_buildLinuxDeb projectName env with h | h | h <;> rw [h] <;> simp
  · rcases copyDsts_buildLinuxDeb projectName env with h | h | h <;> rw [h] <;>
      simp [assets_dst_ne_deb_lib_dst env.tmpDirPath projectName,
        filepathJoin_ne_left env.tmpDirPath "assets"]

/-- Witness for the amended C2 at a concrete all-success linux
environment. -/
theorem c2_amended_only_snap_stages_assets_witness :
    Action.copyDir (filepathJoin sampleEnv.buildPath "assets")
        (filepathJoin sampleEnv.tmpDirPath "assets") ∈ buildLinuxSnap "my-app" sampleEnv ∧
    (∀ d ∈ copyDsts (buildLinuxDeb "my-app" sampleEnv),
      d = filepathJoin (filepathJoin (filepathJoin sampleEnv.tmpDirPath "usr") "lib") "my-app" ∨
      d = sampleEnv.tmpDirPath) ∧
    filepathJoin sampleEnv.tmpDirPath "assets" ∉ copyDsts (buildLinuxDeb "my-app" sampleEnv) :=
  c2_amended_only_snap_stages_assets "my-app" sampleEnv rfl rfl rfl

theorem strData_inj {a b : String} (h : a.data = b.data) : a = b := by
  cases a; cases b; exact congrArg String.mk h

theorem string_append_left_ne {p a b : String} (h : a ≠ b) : p ++ a ≠ p ++ b := by
  intro he
  apply h
  have hd := congrArg String.data he
  rw [strData_append, strData_append] at hd
  exact strData_inj (List.append_cancel_left hd)

/-- C9: for a project name holding a dash or an underscore, the deb scaffold
writes the shell wrapper at usr/bin/strippedName inside the configuration
tree while the desktop entry it writes points Exec at /usr/bin/rawName: the
stripped and raw names differ, so the Exec target is not the installed
wrapper path. -/
theorem c9_deb_wrapper_and_exec_differ (projectName : String) (env : Env)
    (hname : '-' ∈ projectName.data ∨ '_' ∈ projectName.data)
    (hos : env.GOOS = "linux")
    (hauthor : env.pubSpec.Author ≠ "")
    (hstat : env.statPath (packagingFormatPath env.buildPath "linux-deb") = StatResult.errNotExist)
    (hmkdir : ∀ p, env.mkdirOk p = true)
    (hcreate : ∀ p, env.createFileOk p = true) :
    Action.writeFile
        (filepathJoin
          (filepathJoin (filepathJoin (packagingFormatPath env.buildPath "linux-deb") "usr") "bin")
          (removeDashesAndUnderscores projectName))
        (binFileContent projectName) ∈ initLinuxDeb projectName env ∧
    ("Exec=/usr/bin/" ++ projectName) ∈ debDesktopFileContent projectName env ∧
    removeDashesAndUnderscores projectName ≠ projectName ∧
    ("/usr/bin/" : String) ++ removeDashesAndUnderscores projectName ≠
      ("/usr/bin/" : String) ++ projectName := by
  have ho : assertCorrectOSFails env "linux-deb" = false := by
    rw [assertCorrectOSFails, hos]; decide
  have hne := removeDashesAndUnderscores_ne_of_mem hname
  refine ⟨?_, ?_, hne, string_append_left_ne hne⟩
  · have hc : createPackagingFormatDirectory env "linux-deb" =
        ([Action.mkdirAll (packagingFormatPath env.buildPath "linux-deb")], true) := by
      rw [createPackagingFormatDirectory]
      rw [if_neg (by rw [hstat]; simp), if_pos (hmkdir _)]
    simp [initLinuxDeb, initLinuxDebScaffold, ho, hauthor, hc, seqA, hmkdir, hcreate]
  · simp [debDesktopFileContent]

/-- Witness for C9 at the concrete project name my-app (which holds a dash)
in a concrete all-success linux environment. -/
theorem c9_deb_wrapper_and_exec_differ_witness :
    Action.writeFile
        (filepathJoin
          (filepathJoin (filepathJoin (packagingFormatPath sampleEnv.buildPath "linux-deb") "usr") "bin")
          (removeDashesAndUnderscores "my-app"))
        (binFileContent "my-app") ∈ initLinuxDeb "my-app" sampleEnv ∧
    ("Exec=/usr/bin/" ++ "my-app") ∈ debDesktopFileContent "my-app" sampleEnv ∧
    removeDashesAndUnderscores "my-app" ≠ "my-app" ∧
    ("/usr/bin/" : String) ++ removeDashesAndUnderscores "my-app" ≠
      ("/usr/bin/" : String) ++ "my-app" :=
  c9_deb_wrapper_and_exec_differ "my-app" sampleEnv (Or.inl (by decide)) rfl (by decide) rfl
    (fun _ => rfl) (fun _ => rfl)

end Hover
